import Mathlib

/-!
Verification of the Spotted app's persistence and authorization core.

The embedding covers, translated from the repository's sources:
  * the Supabase SQL schema (tables `violation_types` and `reports`, the
    row-level-security policies on `reports`, the `user_stats` view, and the
    helper functions `calculate_reward` and `check_duplicate_report`);
  * the client helper library (`createReport`, `calculateUserStats`,
    `checkDuplicate`).

Conventions of the embedding:
  * SQL `numeric`/`decimal` values and JavaScript numbers are modelled as
    exact rationals (ℚ).  Every concrete value that the claims touch
    (integer fines, fine × 0.10, coordinate deltas) round-trips exactly
    through IEEE doubles into the `decimal(10,2)` column, so the rational
    model is faithful on these paths.
  * timestamps are epoch milliseconds (ℤ), matching the client's
    `Date.now()` arithmetic; ISO-8601 string comparison on `reported_at`
    is order-isomorphic to this.
  * nullable SQL columns are `Option`; a SQL comparison involving NULL is
    unknown and therefore filters the row out, which the embedding renders
    as `false`.
  * the rows a client query sees are the rows its row-level-security
    policies make visible; query functions take that visible list as input.
-/

namespace Spotted

/-- Report lifecycle status; the schema constrains the `status` column by
`check (status in ('pending', 'approved', 'rejected'))`. -/
inductive Status
  | pending
  | approved
  | rejected
deriving DecidableEq, Repr

/-- A row of `public.violation_types` (id, label, fine, icon, description). -/
structure ViolationType where
  id : String
  label : String
  fine : ℤ
  icon : String
  description : String
deriving DecidableEq, Repr

/-- The seed contents of `public.violation_types` from the schema's insert
statement. -/
def violation_types : List ViolationType :=
  [ ⟨"hydrant", "Fire Hydrant", 115, "🚒", "Within 15ft of hydrant"⟩,
    ⟨"double", "Double Parked", 115, "🚗", "Blocking travel lane"⟩,
    ⟨"bike", "Bike Lane", 175, "🚲", "Blocking bicycle lane"⟩,
    ⟨"bus", "Bus Stop/Lane", 175, "🚌", "In bus zone or lane"⟩,
    ⟨"crosswalk", "Crosswalk", 115, "🚶", "Blocking pedestrian crossing"⟩,
    ⟨"sidewalk", "Sidewalk", 115, "♿", "On sidewalk/ramp"⟩ ]

/-- A row of `public.reports`, restricted to the columns the claims are
about.  `reported_at` is epoch milliseconds. -/
structure Report where
  user_id : String
  violation_type : String
  latitude : Option ℚ
  longitude : Option ℚ
  location_text : Option String
  photo_url : Option String
  plate_number : Option String
  status : Status
  fine_amount : Option ℤ
  reward_amount : Option ℚ
  reported_at : ℤ
deriving DecidableEq, Repr

/-- Round a rational to the nearest integer, halves away from zero: the
rounding Postgres `round(numeric, d)` applies. -/
def roundHalfAwayZero (q : ℚ) : ℤ :=
  if 0 ≤ q then ⌊q + 1 / 2⌋ else -⌊-q + 1 / 2⌋

/-- Postgres `round(q, d)`: round to `d` decimal digits, halves away from
zero. -/
def roundTo (d : ℕ) (q : ℚ) : ℚ :=
  (roundHalfAwayZero (q * 10 ^ d) : ℚ) / 10 ^ d

/-- SQL helper function `calculate_reward(fine integer)`:
`round(fine * 0.10, 2)`. -/
def calculate_reward (fine : ℤ) : ℚ :=
  roundTo 2 ((fine : ℚ) * (1 / 10))

/-- The client's catalog lookup in `createReport`: select `fine` from
`violation_types` where `id` equals the requested kind (`single()` yields
no row when the kind is absent). -/
def lookupFine (catalog : List ViolationType) (kind : String) : Option ℤ :=
  (catalog.find? (fun v => v.id == kind)).map (fun v => v.fine)

/-- The client's fine resolution `violationData?.fine || 115`: the
JavaScript `||` falls back to 115 when the lookup misses, and also when the
looked-up fine is the falsy value 0. -/
def resolveFine (catalog : List ViolationType) (kind : String) : ℤ :=
  match lookupFine catalog kind with
  | none => 115
  | some f => if f == 0 then 115 else f

/-- JavaScript `String.prototype.toUpperCase()` on the ASCII strings the
app handles: upper-case the string character by character. -/
def jsToUpper (s : String) : String :=
  ⟨s.data.map Char.toUpper⟩

/-- The named arguments of the client's `createReport`; the interface has
no status field. -/
structure SubmitInput where
  violationType : String
  latitude : Option ℚ
  longitude : Option ℚ
  locationText : Option String
  photoUrl : Option String
  plateNumber : Option String
deriving DecidableEq, Repr

/-- The row `createReport` inserts: fine from `resolveFine`, reward
`fineAmount * 0.10` (stored into the `decimal(10,2)` column, hence rounded
to two decimals), plate upper-cased when present, status always
`'pending'`. -/
def createReportRow (uid : String) (now : ℤ) (catalog : List ViolationType)
    (inp : SubmitInput) : Report :=
  let fineAmount := resolveFine catalog inp.violationType
  { user_id := uid
    violation_type := inp.violationType
    latitude := inp.latitude
    longitude := inp.longitude
    location_text := inp.locationText
    photo_url := inp.photoUrl
    plate_number := inp.plateNumber.map jsToUpper
    status := Status.pending
    fine_amount := some fineAmount
    reward_amount := some (roundTo 2 ((fineAmount : ℚ) * (1 / 10)))
    reported_at := now }

/-- The persistent state the claims range over: the violation catalog and
the report table. -/
structure DB where
  catalog : List ViolationType
  reports : List Report
deriving Repr

/-- `createReport` end to end: build the row from the current catalog and
append it to the report table, returning the persisted row. -/
def submitReport (db : DB) (uid : String) (now : ℤ) (inp : SubmitInput) :
    Report × DB :=
  let r := createReportRow uid now db.catalog inp
  (r, { db with reports := db.reports ++ [r] })

/-- An administrative edit of a catalog fine.  No statement in the schema
or client recomputes stored rewards, so the report table is untouched. -/
def updateCatalogFine (db : DB) (kind : String) (newFine : ℤ) : DB :=
  { db with catalog :=
      db.catalog.map (fun v => if v.id == kind then { v with fine := newFine } else v) }

/-- RLS policy "Users can view own reports": `using (auth.uid() = user_id)`.
A select by `requester` returns exactly the rows the predicate admits. -/
def selectReports (requester : String) (db : List Report) : List Report :=
  db.filter (fun r => requester == r.user_id)

/-- RLS policy "Users can create own reports":
`with check (auth.uid() = user_id)`. -/
def insertPermitted (requester : String) (r : Report) : Bool :=
  requester == r.user_id

/-- RLS policy "Users can update own pending reports":
`using (auth.uid() = user_id and status = 'pending')`. -/
def updatePermitted (requester : String) (r : Report) : Bool :=
  requester == r.user_id && r.status == Status.pending

/-- The external moderation transition (out of scope of the client): set
the status and the review timestamp of a report. -/
def reviewReport (r : Report) (s : Status) : Report :=
  { r with status := s }

/-- The columns of the `user_stats` view and of the client's
`calculateUserStats` result. -/
structure UserStats where
  total_reports : ℕ
  approved_reports : ℕ
  pending_reports : ℕ
  rejected_reports : ℕ
  total_earned : ℚ
  pending_earnings : ℚ
  success_rate : ℚ
deriving DecidableEq, Repr

/-- `count(case when r.status = s then 1 end)` over the identity's rows. -/
def statusCount (s : Status) (rs : List Report) : ℕ :=
  (rs.filter (fun r => r.status == s)).length

/-- `coalesce(sum(case when r.status = s then r.reward_amount else 0 end), 0)`:
SQL `sum` skips NULL addends, so a NULL reward contributes 0. -/
def rewardSum (s : Status) (rs : List Report) : ℚ :=
  (rs.map (fun r => if r.status == s then r.reward_amount.getD 0 else 0)).sum

/-- The `user_stats` view, evaluated on one identity's report rows (the
left join contributes zero `r.id` values for an identity with no
reports, so `count(r.id) = 0` there). -/
def user_stats (rs : List Report) : UserStats :=
  { total_reports := rs.length
    approved_reports := statusCount Status.approved rs
    pending_reports := statusCount Status.pending rs
    rejected_reports := statusCount Status.rejected rs
    total_earned := rewardSum Status.approved rs
    pending_earnings := rewardSum Status.pending rs
    success_rate := roundTo 1
      (if rs.length > 0 then
        (statusCount Status.approved rs : ℚ) / (rs.length : ℚ) * 100
      else 0) }

/-- JavaScript `Math.round`: round to the nearest integer, halves toward
positive infinity. -/
def jsMathRound (q : ℚ) : ℤ :=
  ⌊q + 1 / 2⌋

/-- The client's backup `calculateUserStats`: counts and reward sums over
the status partitions (`r.reward_amount || 0` reads a missing reward as 0),
and `Math.round((approved / total) * 100)` — a whole-percent success rate,
0 when there are no reports. -/
def calculateUserStats (reports : List Report) : UserStats :=
  let approved := reports.filter (fun r => r.status == Status.approved)
  let pending := reports.filter (fun r => r.status == Status.pending)
  let rejected := reports.filter (fun r => r.status == Status.rejected)
  { total_reports := reports.length
    approved_reports := approved.length
    pending_reports := pending.length
    rejected_reports := rejected.length
    total_earned := (approved.map (fun r => r.reward_amount.getD 0)).sum
    pending_earnings := (pending.map (fun r => r.reward_amount.getD 0)).sum
    success_rate :=
      if reports.length > 0 then
        (jsMathRound ((approved.length : ℚ) / (reports.length : ℚ) * 100) : ℚ)
      else 0 }

/-- Result shape of the client's `checkDuplicate`. -/
structure DupResult where
  isDuplicate : Bool
  error : Option String
deriving DecidableEq, Repr

/-- The client's `checkDuplicate(plateNumber, latitude, longitude,
violationType)`.  `db` is the set of report rows visible to the requester
and `queryError` the outcome of the underlying query.  The query matches
`plate_number = plateNumber.toUpperCase()`, `violation_type` equality and
`reported_at >= now − 2 h`; the `latitude`/`longitude` parameters are
accepted but never used.  On a query error it returns
`isDuplicate = false` together with the error. -/
def checkDuplicate (db : List Report) (now : ℤ) (plateNumber : String)
    (latitude longitude : Option ℚ) (violationType : String)
    (queryError : Option String) : DupResult :=
  let twoHoursAgo := now - 2 * 60 * 60 * 1000
  match queryError with
  | some e => { isDuplicate := false, error := some e }
  | none =>
    let data := (db.filter (fun r =>
      r.plate_number == some (jsToUpper plateNumber)
        && r.violation_type == violationType
        && decide (twoHoursAgo ≤ r.reported_at))).take 1
    { isDuplicate := !data.isEmpty, error := none }

/-- SQL `a = b` on nullable operands: unknown (row filtered out) unless
both are present and equal. -/
def sqlOptEq (a b : Option String) : Bool :=
  match a, b with
  | some x, some y => x == y
  | _, _ => false

/-- SQL `abs(a - b) < tol` on nullable operands: unknown (row filtered
out) unless both are present. -/
def sqlOptNear (a b : Option ℚ) (tol : ℚ) : Bool :=
  match a, b with
  | some x, some y => decide (|x - y| < tol)
  | _, _ => false

/-- SQL helper `check_duplicate_report(p_plate, p_lat, p_lng,
p_violation_type)`: counts stored reports with `plate_number = p_plate`
(verbatim, no upper-casing), the same violation type, `reported_at`
strictly newer than two hours ago, and both coordinates strictly within
0.001 of the arguments; returns whether the count is positive. -/
def check_duplicate_report (db : List Report) (now : ℤ) (p_plate : Option String)
    (p_lat p_lng : Option ℚ) (p_violation_type : String) : Bool :=
  let existing := db.filter (fun r =>
    sqlOptEq r.plate_number p_plate
      && r.violation_type == p_violation_type
      && decide (now - 2 * 60 * 60 * 1000 < r.reported_at)
      && sqlOptNear r.latitude p_lat (1 / 1000)
      && sqlOptNear r.longitude p_lng (1 / 1000))
  existing.length > 0


/-! Concrete instances used by the witnesses and counterexamples. -/

/-- A concrete submission: kind `bike`, geolocation (40, −73), plate
`abc-1234`. -/
def sampleInput : SubmitInput :=
  { violationType := "bike", latitude := some 40, longitude := some (-73)
    locationText := some "5th Ave & 9th St", photoUrl := none
    plateNumber := some "abc-1234" }

/-- A submission whose violation kind is absent from the seeded catalog. -/
def missingKindInput : SubmitInput :=
  { sampleInput with violationType := "chalked" }

/-- A pending report owned by identity `bob`. -/
def bobReport : Report :=
  { user_id := "bob", violation_type := "bike", latitude := none, longitude := none
    location_text := none, photo_url := none, plate_number := some "ABC-1234"
    status := Status.pending, fine_amount := some 175, reward_amount := some (35 / 2)
    reported_at := 0 }

/-- The prior report of the duplicate-check counterexample: plate ABC-1234,
kind bike, located at (40, −73), reported 10 minutes before the check. -/
def dupPrior : Report :=
  { user_id := "u1", violation_type := "bike", latitude := some 40, longitude := some (-73)
    location_text := none, photo_url := none, plate_number := some "ABC-1234"
    status := Status.pending, fine_amount := some 175, reward_amount := some (35 / 2)
    reported_at := 9999400000 }

/-- Scenario: an approved report with reward 17.50. -/
def scenarioApproved : Report :=
  { user_id := "u1", violation_type := "bike", latitude := none, longitude := none
    location_text := some "5th Ave & 9th St", photo_url := none
    plate_number := some "ABC-1234", status := Status.approved
    fine_amount := some 175, reward_amount := some (35 / 2), reported_at := 0 }

/-- Scenario: a pending report with reward 11.50. -/
def scenarioPending : Report :=
  { user_id := "u1", violation_type := "hydrant", latitude := none, longitude := none
    location_text := some "7th Ave & Carroll St", photo_url := none
    plate_number := some "XYZ-5678", status := Status.pending
    fine_amount := some 115, reward_amount := some (23 / 2), reported_at := 1 }

/-- Scenario: a rejected report with reward 0. -/
def scenarioRejected : Report :=
  { user_id := "u1", violation_type := "crosswalk", latitude := none, longitude := none
    location_text := some "Court St & Atlantic Ave", photo_url := none
    plate_number := some "JKL-7890", status := Status.rejected
    fine_amount := some 115, reward_amount := some 0, reported_at := 2 }

/-- The three scenario reports, all owned by one identity. -/
def scenarioReports : List Report :=
  [scenarioApproved, scenarioPending, scenarioRejected]

/-! Helper lemmas. -/

/-- Every fine in the seeded catalog is nonzero, so the client's falsy
fallback `fine || 115` never rewrites a looked-up catalog fine. -/
lemma lookupFine_ne_zero {kind : String} {fine : ℤ}
    (h : lookupFine violation_types kind = some fine) : fine ≠ 0 := by
  rcases Option.map_eq_some'.mp h with ⟨v, hv, rfl⟩
  have hmem : v ∈ violation_types := List.mem_of_find?_eq_some hv
  fin_cases hmem <;> decide

/-- Taking one element of a list is empty exactly when the list is. -/
lemma take_one_isEmpty {α : Type} (l : List α) : (l.take 1).isEmpty = l.isEmpty := by
  cases l <;> rfl

/-- A filtered list is nonempty iff some element satisfies the filter. -/
lemma filter_ne_nil_iff {α : Type} (p : α → Bool) (l : List α) :
    l.filter p ≠ [] ↔ ∃ a ∈ l, p a = true := by
  constructor
  · intro h
    obtain ⟨x, hx⟩ := List.exists_mem_of_ne_nil _ h
    exact ⟨x, (List.mem_filter.mp hx).1, (List.mem_filter.mp hx).2⟩
  · rintro ⟨a, ha, hpa⟩ h
    exact List.ne_nil_of_mem (List.mem_filter.mpr ⟨ha, hpa⟩) h

/-- The view's guarded reward sum equals the plain sum of rewards over the
rows of the given status. -/
lemma rewardSum_eq_filter_sum (s : Status) (rs : List Report) :
    rewardSum s rs
      = ((rs.filter (fun r => r.status == s)).map
          (fun r => r.reward_amount.getD 0)).sum := by
  induction rs with
  | nil => rfl
  | cons r rs ih =>
    by_cases h : r.status = s <;>
      simp [rewardSum, List.filter_cons, h, ih] <;> simp [rewardSum] at ih <;>
        simp [ih]



/-! The claims. -/

/-- C1: a report submitted through `createReport` for a violation kind whose
fine is in the seeded catalog stores
`reward_amount = round(fine × 0.10, 2)` (the schema's `calculate_reward`)
computed from the catalog fine at submission time; and an administrative
change of a catalog fine afterwards leaves every stored report row — hence
its `reward_amount` — unchanged. -/
theorem reward_frozen_at_submission (reports : List Report) (uid : String)
    (now : ℤ) (inp : SubmitInput) (fine : ℤ)
    (hfind : lookupFine violation_types inp.violationType = some fine) :
    (submitReport ⟨violation_types, reports⟩ uid now inp).1.reward_amount
        = some (calculate_reward fine)
    ∧ ∀ kind newFine,
        (updateCatalogFine (submitReport ⟨violation_types, reports⟩ uid now inp).2
            kind newFine).reports
          = (submitReport ⟨violation_types, reports⟩ uid now inp).2.reports := by
  refine ⟨?_, fun kind newFine => rfl⟩
  have hne : fine ≠ 0 := lookupFine_ne_zero hfind
  simp [submitReport, createReportRow, resolveFine, hfind, calculate_reward, hne]

/-- C1 witness: the submission of `sampleInput` (kind `bike`, catalog fine
175) stores reward `calculate_reward 175` and survives catalog edits. -/
theorem reward_frozen_at_submission_witness :
    (submitReport ⟨violation_types, []⟩ "u" 0 sampleInput).1.reward_amount
        = some (calculate_reward 175)
    ∧ ∀ kind newFine,
        (updateCatalogFine (submitReport ⟨violation_types, []⟩ "u" 0 sampleInput).2
            kind newFine).reports
          = (submitReport ⟨violation_types, []⟩ "u" 0 sampleInput).2.reports :=
  reward_frozen_at_submission [] "u" 0 sampleInput 175 (by decide)

/-- C2: every invocation of report submission inserts a row with status
`pending`: the submission interface (`SubmitInput`) has no status field a
caller could set, the row `createReport` builds always carries
`Status.pending`, and after a submission every row of the table is either a
pre-existing row or has status `pending`. -/
theorem report_status_forced_pending (db : DB) (uid : String) (now : ℤ)
    (inp : SubmitInput) :
    (submitReport db uid now inp).1.status = Status.pending
    ∧ ∀ r ∈ (submitReport db uid now inp).2.reports,
        r ∈ db.reports ∨ r.status = Status.pending := by
  refine ⟨rfl, ?_⟩
  intro r hr
  rcases List.mem_append.mp hr with h | h
  · exact Or.inl h
  · right
    rcases List.mem_singleton.mp h with rfl
    rfl

/-- C3 counterexample: the claim requires the duplicate check to return
false when geolocation is supplied and no prior report lies within 0.001°
of it; here the only prior report (`dupPrior`, at (40, −73)) is tens of
degrees away from the supplied (50, 10) — both per-axis tolerance tests
fail — yet `checkDuplicate` returns `isDuplicate = true`. -/
theorem duplicate_check_location_counterexample :
    (checkDuplicate [dupPrior] 10000000000 "abc-1234" (some 50) (some 10) "bike"
        none).isDuplicate = true
    ∧ sqlOptNear dupPrior.latitude (some 50) (1 / 1000) = false
    ∧ sqlOptNear dupPrior.longitude (some 10) (1 / 1000) = false := by
  refine ⟨by decide, ?_, ?_⟩ <;>
    · simp only [sqlOptNear, dupPrior, decide_eq_false_iff_not]
      norm_num

/-- C3 (amended): the client duplicate check `checkDuplicate` returns true
iff a visible prior report has plate equal to the upper-cased supplied
plate, the same violation kind, and was reported within the last 2 hours —
the supplied geolocation is ignored (so in particular it returns false for
a report 2 hours and 1 minute old or of a different kind).  The 0.001° per-
axis coordinate tolerance exists only in the SQL helper
`check_duplicate_report`, which also differs by comparing the supplied
plate verbatim, not upper-cased, and by a strict 2-hour cutoff. -/
theorem duplicate_check_characterization (db : List Report) (now : ℤ)
    (plateNumber : String) (latitude longitude : Option ℚ)
    (violationType : String) :
    ((checkDuplicate db now plateNumber latitude longitude violationType
        none).isDuplicate = true
      ↔ ∃ r ∈ db, r.plate_number = some (jsToUpper plateNumber)
          ∧ r.violation_type = violationType
          ∧ now - 2 * 60 * 60 * 1000 ≤ r.reported_at)
    ∧ ∀ (p_plate : Option String) (p_lat p_lng : Option ℚ),
        (check_duplicate_report db now p_plate p_lat p_lng violationType = true
          ↔ ∃ r ∈ db, sqlOptEq r.plate_number p_plate = true
              ∧ r.violation_type = violationType
              ∧ now - 2 * 60 * 60 * 1000 < r.reported_at
              ∧ sqlOptNear r.latitude p_lat (1 / 1000) = true
              ∧ sqlOptNear r.longitude p_lng (1 / 1000) = true) := by
  constructor
  · simp only [checkDuplicate, take_one_isEmpty, Bool.not_eq_true']
    rw [List.isEmpty_eq_false_iff_exists_mem]
    simp [List.mem_filter, and_assoc]
  · intro p_plate p_lat p_lng
    simp only [check_duplicate_report, List.length_pos, decide_eq_true_eq]
    rw [filter_ne_nil_iff]
    simp [and_assoc]

/-- C4 counterexample: for three reports of which one is approved, the
client backup `calculateUserStats` reports success rate 33 — `Math.round`
to a whole percent — while approved/total×100 rounded to one decimal place
is 33.3; the two differ, refuting "the aggregate success rate equals
approved/total×100 rounded to one decimal place" for this code path. -/
theorem success_rate_one_decimal_counterexample :
    (calculateUserStats scenarioReports).success_rate = 33
    ∧ roundTo 1 ((1 : ℚ) / 3 * 100) = 333 / 10
    ∧ (33 : ℚ) ≠ 333 / 10 := by
  refine ⟨?_, ?_, by norm_num⟩
  · have h : (calculateUserStats scenarioReports).success_rate
        = (jsMathRound (((1 : ℕ) : ℚ) / ((3 : ℕ) : ℚ) * 100) : ℚ) := rfl
    rw [h]
    norm_num [jsMathRound]
  · norm_num [roundTo, roundHalfAwayZero]

/-- C4 (amended): the `user_stats` view computes the success rate as
approved/total×100 rounded to one decimal place, and exactly 0 (no division
error — the view's case guard) for an identity with zero reports; the
client backup `calculateUserStats` instead rounds approved/total×100 to the
nearest whole percent with `Math.round`, likewise 0 for zero reports. -/
theorem success_rate_definitions (rs : List Report) :
    ((user_stats rs).success_rate =
        if rs.length > 0 then
          roundTo 1 (((rs.filter (fun r => r.status == Status.approved)).length : ℚ)
            / (rs.length : ℚ) * 100)
        else 0)
    ∧ ((calculateUserStats rs).success_rate =
        if rs.length > 0 then
          (jsMathRound (((rs.filter (fun r => r.status == Status.approved)).length : ℚ)
            / (rs.length : ℚ) * 100) : ℚ)
        else 0)
    ∧ (user_stats []).success_rate = 0
    ∧ (calculateUserStats []).success_rate = 0 := by
  have hzero : roundTo 1 0 = 0 := by norm_num [roundTo, roundHalfAwayZero]
  refine ⟨?_, ?_, ?_, ?_⟩
  · by_cases h : rs.length > 0
    · simp [user_stats, statusCount, h]
    · simp [user_stats, statusCount, h, hzero]
  · by_cases h : rs.length > 0 <;> simp [calculateUserStats, h]
  · simpa [user_stats, statusCount] using hzero
  · norm_num [calculateUserStats]

/-- C5: the update policy ("Users can update own pending reports") permits
an owner-initiated update iff the requester is the owning identity and the
report's current status is `pending`; once a review transition has set the
status to approved or rejected, every owner-initiated update is refused. -/
theorem owner_update_only_while_pending :
    (∀ requester r, updatePermitted requester r = true
        ↔ requester = r.user_id ∧ r.status = Status.pending)
    ∧ ∀ r s, (s = Status.approved ∨ s = Status.rejected) →
        ∀ requester, updatePermitted requester (reviewReport r s) = false := by
  constructor
  · intro requester r
    simp [updatePermitted]
  · rintro r s (rfl | rfl) requester <;> simp [updatePermitted, reviewReport]

/-- C6: for distinct identities `a ≠ b` and a report owned by `b`: the
report never appears in `a`'s select result (the row is simply invisible —
a select returns a plain filtered list, never a distinguishable
authorization error), `a` may not insert a row owned by `b`, `a` may not
update `b`'s report, and adding `b`'s row to the table leaves `a`'s select
result exactly as it was. -/
theorem cross_identity_isolation (a b : String) (db : List Report) (r : Report)
    (hab : a ≠ b) (hr : r.user_id = b) :
    r ∉ selectReports a db
    ∧ insertPermitted a r = false
    ∧ updatePermitted a r = false
    ∧ selectReports a (db ++ [r]) = selectReports a db := by
  have hneq : a ≠ r.user_id := by rw [hr]; exact hab
  refine ⟨?_, ?_, ?_, ?_⟩
  · intro hmem
    have := (List.mem_filter.mp hmem).2
    simp at this
    exact hneq this
  · simp [insertPermitted, hneq]
  · simp [updatePermitted, hneq]
  · simp [selectReports, List.filter_append, hneq]

/-- C6 witness: `alice` can neither see, insert as, nor update `bob`'s
report, and `bob`'s row does not change `alice`'s select result. -/
theorem cross_identity_isolation_witness :
    bobReport ∉ selectReports "alice" []
    ∧ insertPermitted "alice" bobReport = false
    ∧ updatePermitted "alice" bobReport = false
    ∧ selectReports "alice" ([] ++ [bobReport]) = selectReports "alice" [] :=
  cross_identity_isolation "alice" "bob" [] bobReport (by decide) rfl

/-- C7: for a submission whose violation kind is absent from the catalog,
fine resolution yields the documented fallback 115 (`fine || 115`) and the
submission proceeds — `resolveFine` and `createReportRow` are total, so
resolution neither fails silently nor hard-fails — storing
`fine_amount = 115` and `reward_amount = 11.50`. -/
theorem missing_kind_fallback_fine (uid : String) (now : ℤ) (inp : SubmitInput)
    (h : lookupFine violation_types inp.violationType = none) :
    resolveFine violation_types inp.violationType = 115
    ∧ (createReportRow uid now violation_types inp).fine_amount = some 115
    ∧ (createReportRow uid now violation_types inp).reward_amount = some (23 / 2) := by
  have h1 : resolveFine violation_types inp.violationType = 115 := by
    simp [resolveFine, h]
  refine ⟨h1, by simp [createReportRow, h1], ?_⟩
  simp [createReportRow, h1]
  norm_num [roundTo, roundHalfAwayZero]

/-- C7 witness: the kind `chalked` is not in the catalog; its submission
stores fine 115 and reward 11.50. -/
theorem missing_kind_fallback_fine_witness :
    resolveFine violation_types "chalked" = 115
    ∧ (createReportRow "u" 0 violation_types missingKindInput).fine_amount = some 115
    ∧ (createReportRow "u" 0 violation_types missingKindInput).reward_amount
        = some (23 / 2) :=
  missing_kind_fallback_fine "u" 0 missingKindInput (by decide)

/-- C8: the `user_stats` view returns the total report count, the
per-status counts, the sum of `reward_amount` over approved rows as
`total_earned` and over pending rows as `pending_earnings` (each sum 0 when
no such rows exist); on the scenario — one approved report of reward 17.50,
one pending of 11.50, one rejected of 0 — it returns total 3, approved 1,
pending 1, rejected 1, total earned 17.50, pending earnings 11.50 (and the
client backup `calculateUserStats` agrees on every one of those fields). -/
theorem user_stats_fields (rs : List Report) :
    (user_stats rs).total_reports = rs.length
    ∧ (user_stats rs).approved_reports
        = (rs.filter (fun r => r.status == Status.approved)).length
    ∧ (user_stats rs).pending_reports
        = (rs.filter (fun r => r.status == Status.pending)).length
    ∧ (user_stats rs).rejected_reports
        = (rs.filter (fun r => r.status == Status.rejected)).length
    ∧ (user_stats rs).total_earned
        = ((rs.filter (fun r => r.status == Status.approved)).map
            (fun r => r.reward_amount.getD 0)).sum
    ∧ (user_stats rs).pending_earnings
        = ((rs.filter (fun r => r.status == Status.pending)).map
            (fun r => r.reward_amount.getD 0)).sum
    ∧ ((∀ r ∈ rs, r.status ≠ Status.approved) → (user_stats rs).total_earned = 0)
    ∧ ((∀ r ∈ rs, r.status ≠ Status.pending) → (user_stats rs).pending_earnings = 0)
    ∧ user_stats scenarioReports =
        { total_reports := 3, approved_reports := 1, pending_reports := 1
          rejected_reports := 1, total_earned := 35 / 2, pending_earnings := 23 / 2
          success_rate := 333 / 10 }
    ∧ calculateUserStats scenarioReports =
        { total_reports := 3, approved_reports := 1, pending_reports := 1
          rejected_reports := 1, total_earned := 35 / 2, pending_earnings := 23 / 2
          success_rate := 33 } := by
  refine ⟨rfl, rfl, rfl, rfl, rewardSum_eq_filter_sum _ _, rewardSum_eq_filter_sum _ _,
    ?_, ?_, ?_, ?_⟩
  · intro h
    have hnil : rs.filter (fun r => r.status == Status.approved) = [] :=
      List.filter_eq_nil_iff.mpr (fun r hr => by simp [h r hr])
    simp [user_stats, rewardSum_eq_filter_sum, hnil]
  · intro h
    have hnil : rs.filter (fun r => r.status == Status.pending) = [] :=
      List.filter_eq_nil_iff.mpr (fun r hr => by simp [h r hr])
    simp [user_stats, rewardSum_eq_filter_sum, hnil]
  · have h1 : List.filter (fun r => r.status == Status.approved) scenarioReports
        = [scenarioApproved] := rfl
    have h2 : List.filter (fun r => r.status == Status.pending) scenarioReports
        = [scenarioPending] := rfl
    have h3 : List.filter (fun r => r.status == Status.rejected) scenarioReports
        = [scenarioRejected] := rfl
    have hlen : scenarioReports.length = 3 := rfl
    simp only [user_stats, statusCount, rewardSum_eq_filter_sum, h1, h2, h3, hlen,
      UserStats.mk.injEq, List.length_cons, List.length_nil, List.map_cons,
      List.map_nil, List.sum_cons, List.sum_nil]
    norm_num [scenarioApproved, scenarioPending, scenarioRejected, roundTo,
      roundHalfAwayZero]
  · have h1 : List.filter (fun r => r.status == Status.approved) scenarioReports
        = [scenarioApproved] := rfl
    have h2 : List.filter (fun r => r.status == Status.pending) scenarioReports
        = [scenarioPending] := rfl
    have h3 : List.filter (fun r => r.status == Status.rejected) scenarioReports
        = [scenarioRejected] := rfl
    have hlen : scenarioReports.length = 3 := rfl
    simp only [calculateUserStats, h1, h2, h3, hlen, UserStats.mk.injEq,
      List.length_cons, List.length_nil, List.map_cons, List.map_nil,
      List.sum_cons, List.sum_nil]
    norm_num [scenarioApproved, scenarioPending, scenarioRejected, jsMathRound]

/-- C9: a submission that supplies a plate string stores its upper-cased
form in `plate_number`. -/
theorem plate_stored_uppercased (uid : String) (now : ℤ)
    (catalog : List ViolationType) (inp : SubmitInput) (s : String)
    (h : inp.plateNumber = some s) :
    (createReportRow uid now catalog inp).plate_number = some (jsToUpper s) := by
  simp [createReportRow, h]

/-- C9 witness: submitting plate `abc-1234` stores `ABC-1234`. -/
theorem plate_stored_uppercased_witness :
    (createReportRow "u" 0 violation_types sampleInput).plate_number
      = some "ABC-1234" :=
  (plate_stored_uppercased "u" 0 violation_types sampleInput "abc-1234" rfl).trans
    (by decide)

/-- C10: when the underlying reports query fails, `checkDuplicate` returns
`isDuplicate = false` together with that error — it fails open, reporting
"no duplicate" instead of blocking or passing the failure off as a
positive result. -/
theorem checkDuplicate_fails_open (db : List Report) (now : ℤ)
    (plateNumber : String) (latitude longitude : Option ℚ)
    (violationType : String) (e : String) :
    checkDuplicate db now plateNumber latitude longitude violationType (some e)
      = { isDuplicate := false, error := some e } := rfl

end Spotted
